import Mathlib

/-!
Verification of the batch image-transcoding pipeline `src/batch_shrink.py`.

The Python source is shallowly embedded: PIL images become a `PILImage`
structure (mode, dimensions, row-major pixel rows, and the `info` entries the
pipeline reads: icc profile, exif blob, palette transparency); the PIL calls
the script makes (`convert`, `alpha_composite`, `ImageOps.exif_transpose`,
`Image.new`, `resize`) are modelled at the pixel level following their
documented semantics, since those libraries are external collaborators of the
repository; fallible operations (file IO, codec calls, optional imports)
become `Except`/`Option` values supplied through explicit environment
records.  Machine integers are `Nat` (all pixel values are 8-bit and the
Python code never overflows them).
-/

namespace BatchShrink

/-- The PIL image modes the pipeline distinguishes
(`_composite_alpha_to_rgb` branches on exactly these). -/
inductive PILMode
  | RGBA
  | LA
  | P
  | CMYK
  | RGB
  | L
deriving DecidableEq, Repr

/-- Whether a mode carries an alpha channel. -/
def PILMode.hasAlpha : PILMode → Bool
  | .RGBA => true
  | .LA => true
  | _ => false

/-- One pixel: the list of its channel values (length depends on the mode:
4 for RGBA, 2 for LA, 1 for P and L, 3 for RGB, 4 for CMYK). -/
abbrev Px := List Nat

/-- A parsed EXIF blob: the 0th-IFD `(tag, value)` entries, which is the
granularity `piexif.load`/`piexif.dump` and `ImageOps.exif_transpose`
work at in this pipeline. -/
abbrev ExifData := List (Nat × Nat)

/-- In-memory PIL image: pixel buffer plus the `info` entries the script
reads (`icc_profile`, `exif`, palette `transparency` key, palette). -/
structure PILImage where
  mode : PILMode
  width : Nat
  height : Nat
  /-- Row-major flattened pixel buffer, length `width * height`. -/
  data : List Px
  /-- Palette for mode `P`: index to RGB entry. -/
  palette : List Px := []
  /-- The `info["transparency"]` entry: transparent palette index, when present. -/
  transparency : Option Nat := none
  /-- The `info["icc_profile"]` bytes. -/
  icc : Option (List Nat) := none
  /-- The `info["exif"]` blob, in parsed form. -/
  exif : Option ExifData := none
deriving DecidableEq, Repr

/-- PIL CMYK→RGB channel conversion (multiplicative un-inking). -/
def cmykToRgbPx : Px → Px
  | [c, m, y, k] =>
      [(255 - c) * (255 - k) / 255, (255 - m) * (255 - k) / 255,
       (255 - y) * (255 - k) / 255]
  | p => p

/-- Models `img.convert("RGB")`: per-mode channel conversion; PIL keeps the
`info` dict (icc/exif) and drops palette data. -/
def toRGB (img : PILImage) : PILImage :=
  { img with
    mode := .RGB
    palette := []
    transparency := none
    data :=
      match img.mode with
      | .RGB => img.data
      | .RGBA => img.data.map (fun p => p.take 3)
      | .LA => img.data.map (fun p =>
          match p with
          | [l, _] => [l, l, l]
          | q => q)
      | .L => img.data.map (fun p =>
          match p with
          | [l] => [l, l, l]
          | q => q)
      | .P => img.data.map (fun p =>
          match p with
          | [i] => (img.palette.getD i []).take 3
          | q => q)
      | .CMYK => img.data.map cmykToRgbPx }

/-- Models `img.convert("RGBA")`: per-mode channel conversion; a palette
image's transparency key becomes alpha 0 at the keyed index. -/
def toRGBA (img : PILImage) : PILImage :=
  { img with
    mode := .RGBA
    palette := []
    transparency := none
    data :=
      match img.mode with
      | .RGBA => img.data
      | .LA => img.data.map (fun p =>
          match p with
          | [l, a] => [l, l, l, a]
          | q => q)
      | .L => img.data.map (fun p =>
          match p with
          | [l] => [l, l, l, 255]
          | q => q)
      | .RGB => img.data.map (fun p => p.take 3 ++ [255])
      | .P => img.data.map (fun p =>
          match p with
          | [i] =>
              (img.palette.getD i []).take 3 ++
                [if img.transparency = some i then 0 else 255]
          | q => q)
      | .CMYK => img.data.map (fun p => cmykToRgbPx p ++ [255]) }

/-- Models `Image.new("RGBA", img.size, bg_rgb + (255,))`: a solid opaque
background raster with an empty `info` dict. -/
def imageNewRGBA (w h : Nat) (bg : Nat × Nat × Nat) : PILImage :=
  { mode := .RGBA, width := w, height := h
    data := List.replicate (w * h) [bg.1, bg.2.1, bg.2.2, 255] }

/-- One pixel of `Image.alpha_composite` (source-over blending with 8-bit
rounding).  A fully transparent source pixel leaves the destination pixel;
a fully opaque one replaces it (the general blend reduces to exactly the
source at alpha 255, see `compositePx_full_alpha`). -/
def compositePx (dst src : Px) : Px :=
  match dst, src with
  | [dr, dg, db, da], [sr, sg, sb, sa] =>
      if sa = 0 then [dr, dg, db, da]
      else
        let blend := da * (255 - sa)
        let outa255 := sa * 255 + blend
        let mix := fun (s d : Nat) => (s * sa * 255 + d * blend + outa255 / 2) / outa255
        [mix sr dr, mix sg dg, mix sb db, (outa255 + 127) / 255]
  | _, _ => dst

/-- Models `Image.alpha_composite(dst, src)`: pixelwise source-over; the
result is built from `dst` (PIL's `im1._new`), so it carries `dst`'s `info`. -/
def alphaComposite (dst src : PILImage) : PILImage :=
  { dst with data := List.zipWith compositePx dst.data src.data }

/-- Model of `_composite_alpha_to_rgb` (src/batch_shrink.py:42-59): flatten any
transparency onto the background colour and land in RGB, passing RGB and
grayscale rasters through unchanged.  The source handles a palette image
with a transparency key by recursing on `img.convert("RGBA")`; that call's
argument always has mode RGBA, so the single level of recursion is unfolded
here and the definition is non-recursive. -/
def compositeAlphaToRgb (img : PILImage) (bg : Nat × Nat × Nat) : PILImage :=
  if img.mode = .RGBA ∨ img.mode = .LA then
    toRGB (alphaComposite (imageNewRGBA img.width img.height bg) (toRGBA img))
  else if img.mode = .P then
    if img.transparency.isSome then
      toRGB (alphaComposite (imageNewRGBA img.width img.height bg) (toRGBA (toRGBA img)))
    else
      toRGB img
  else if ¬ (img.mode = .RGB ∨ img.mode = .L) then
    toRGB img
  else
    img

/-- Pixel access in the row-major buffer. -/
def pget (img : PILImage) (x y : Nat) : Px :=
  img.data.getD (y * img.width + x) []

/-- Rebuild an image of size `w × h` whose pixel at `(x, y)` is `f x y`. -/
def remap (img : PILImage) (w h : Nat) (f : Nat → Nat → Px) : PILImage :=
  { img with
    width := w
    height := h
    data := (List.range h).flatMap (fun y => (List.range w).map (fun x => f x y)) }

/-- The EXIF Orientation tag (0x0112 = 274). -/
def orientationTag : Nat := 274

/-- Look a tag up in a parsed EXIF blob (first entry wins, as in a dict
built left to right). -/
def exifGet (e : ExifData) (tag : Nat) : Option Nat :=
  (e.find? (fun p => p.1 == tag)).map (fun p => p.2)

/-- The pixel permutation PIL's `transpose` applies for EXIF orientation `o`
(2 = flip left-right, 3 = rotate 180, 4 = flip top-bottom, 5 = transpose,
6 = rotate 270° CCW, 7 = transverse, 8 = rotate 90° CCW); any other value
has no transpose method and leaves the image unchanged. -/
def transposeOrient (img : PILImage) (o : Nat) : PILImage :=
  let w := img.width
  let h := img.height
  if o = 2 then remap img w h (fun x y => pget img (w - 1 - x) y)
  else if o = 3 then remap img w h (fun x y => pget img (w - 1 - x) (h - 1 - y))
  else if o = 4 then remap img w h (fun x y => pget img x (h - 1 - y))
  else if o = 5 then remap img h w (fun x y => pget img y x)
  else if o = 6 then remap img h w (fun x y => pget img y (h - 1 - x))
  else if o = 7 then remap img h w (fun x y => pget img (w - 1 - y) (h - 1 - x))
  else if o = 8 then remap img h w (fun x y => pget img (w - 1 - y) x)
  else img

/-- Models `ImageOps.exif_transpose` (the orientation bake of
src/batch_shrink.py:101): read the Orientation tag from the image's EXIF
blob; when it is one of 2..8, permute the pixels accordingly and delete the
tag from the blob; otherwise return the image unchanged. -/
def exifTranspose (img : PILImage) : PILImage :=
  match img.exif with
  | none => img
  | some e =>
    match exifGet e orientationTag with
    | none => img
    | some o =>
      if 2 ≤ o ∧ o ≤ 8 then
        { transposeOrient img o with
          exif := some (e.filter (fun p => p.1 != orientationTag)) }
      else img

/-- Python `str.lower()` (ASCII case folding as `Char.toLower`). -/
def strLower (s : String) : String :=
  String.mk (s.data.map Char.toLower)

/-- HEIF-family extensions (`HEIF_EXTS`, src/batch_shrink.py:39). -/
def heifExts : List String := [".heic", ".heif", ".hif", ".hifc"]

/-- The installation-hint message `_require_heif` raises with. -/
def requireHeifMsg (reason : String) : String :=
  reason ++ "\nHEIF/HIF support requires pillow-heif (and system libheif)."

/-- Model of `_require_heif` (src/batch_shrink.py:62-80): no-op when HEIF support is
available, otherwise raise a `RuntimeError` with an explanatory message. -/
def require_heif (heifEnabled : Bool) (reason : String) : Except String Unit :=
  if heifEnabled then .ok () else .error (requireHeifMsg reason)

/-- An input file path as `pathlib` decomposes it: leading directories,
stem, and (final) extension including the dot. -/
structure InPath where
  dirs : List String
  stem : String
  ext : String
deriving DecidableEq, Repr

/-- The textual form of a path (what `str(in_path)` yields). -/
def pathStr (p : InPath) : String :=
  String.intercalate "/" (p.dirs ++ [p.stem ++ p.ext])

/-- Results of the external codec calls `decode_image` makes, as the
filesystem/codec environment of one worker: `rawResult` is the RGB array
rawpy's `postprocess` returns for a `.arw` file (an `(h, w, 3)` 8-bit array,
so `Image.fromarray` yields mode RGB), `openResult` is what `Image.open`
yields on the path. -/
structure DecodeEnv where
  rawResult : Except String (Nat × Nat × List Px)
  openResult : Except String PILImage

/-- Model of `decode_image` (src/batch_shrink.py:83-103): RAW files go through rawpy
and land in `_composite_alpha_to_rgb`; HEIF-family extensions require HEIF
capability; everything else is opened, orientation-baked, and composited. -/
def decode_image (heifEnabled : Bool) (env : DecodeEnv) (path : InPath)
    (bg : Nat × Nat × Nat) : Except String PILImage :=
  let ext := strLower path.ext
  if ext = ".arw" then
    match env.rawResult with
    | .error e => .error e
    | .ok (w, h, d) =>
        let img : PILImage := { mode := .RGB, width := w, height := h, data := d }
        .ok (compositeAlphaToRgb img bg)
  else if heifExts.contains ext ∧ ¬ heifEnabled then
    .error (requireHeifMsg "Failed to decode HEIF/HIF input file.")
  else
    match env.openResult with
    | .error e => .error e
    | .ok img => .ok (compositeAlphaToRgb (exifTranspose img) bg)

/-- Models `img.resize(new_size, Image.LANCZOS)` at the level the claims
concern (dimensions); the Lanczos resampling kernel is external to the
repository, so pixel values are modelled by index remapping. -/
def resize (img : PILImage) (w h : Nat) : PILImage :=
  remap img w h (fun x y => pget img (x * img.width / w) (y * img.height / h))

/-- Model of `downscale` (src/batch_shrink.py:106-112): no-op when the long edge is
within `max_edge`; otherwise scale both dimensions by
`max_edge / max(w, h)`, truncating (`int()`) and clamping to at least 1.
The Python float arithmetic `int(w * (max_edge / max(w, h)))` is modelled in
exact arithmetic as `w * maxEdge / max w h` (`Nat` floor division). -/
def downscale (img : PILImage) (maxEdge : Nat) : PILImage :=
  let w := img.width
  let h := img.height
  if max w h ≤ maxEdge then img
  else
    let newW := Nat.max 1 (w * maxEdge / max w h)
    let newH := Nat.max 1 (h * maxEdge / max w h)
    resize img newW newH

/-- Model of `_keep_only_orientation_exif` (src/batch_shrink.py:115-139): a missing or
empty blob yields `None` before piexif is even imported; with a blob present,
piexif must be importable, and the result is a minimal blob holding only the
Orientation entry, or `None` when the blob has no Orientation tag. -/
def keep_only_orientation_exif (piexifAvailable : Bool)
    (exifBytes : Option ExifData) : Except String (Option ExifData) :=
  match exifBytes with
  | none => .ok none
  | some e =>
    if e = [] then .ok none
    else if ¬ piexifAvailable then
      .error "--keep-orientation-only requires piexif. Install: pip install piexif."
    else
      match exifGet e orientationTag with
      | none => .ok none
      | some o => .ok (some [(orientationTag, o)])

/-- The keyword arguments `_save_as_jpeg` passes to `img.save` — the
observable output of the JPEG encoder. -/
structure JpegKwargs where
  quality : Nat
  optimize : Bool := true
  progressive : Bool := true
  /-- Chroma `subsampling = 2` is 4:2:0. -/
  subsampling : Nat := 2
  icc_profile : Option (List Nat) := none
  exif : Option ExifData := none
deriving DecidableEq, Repr

/-- Worker-side environment of the JPEG encoder: whether `import piexif`
succeeds, and the result of the underlying `img.save` filesystem write. -/
structure JpegEnv where
  piexifAvailable : Bool
  writeOk : Except String Unit

/-- The EXIF entry of the save kwargs `_save_as_jpeg` builds
(src/batch_shrink.py:161-169): nothing when stripping; under
keep-orientation-only whatever truthy blob `_keep_only_orientation_exif`
yields (which may raise); otherwise the source blob verbatim when truthy. -/
def jpeg_exif_kwargs (piexifAvailable : Bool) (exifBytes : Option ExifData)
    (strip keepOrientationOnly : Bool) : Except String (Option ExifData) :=
  if ¬ strip then
    if keepOrientationOnly then
      match keep_only_orientation_exif piexifAvailable exifBytes with
      | .error e => .error e
      | .ok onlyO =>
        match onlyO with
        | some e => if e ≠ [] then .ok (some e) else .ok none
        | none => .ok none
    else
      if exifBytes.getD [] ≠ [] then .ok exifBytes else .ok none
  else .ok none

/-- Model of `_save_as_jpeg` (src/batch_shrink.py:142-171): build the save kwargs —
attach the icc profile when present and not stripping; attach EXIF per the
policy (via `jpeg_exif_kwargs`, which may raise for a missing piexif) —
then perform the write.  Returns the kwargs the save was performed with. -/
def save_as_jpeg (env : JpegEnv) (img : PILImage) (quality : Nat)
    (strip keepOrientationOnly : Bool) : Except String JpegKwargs :=
  match jpeg_exif_kwargs env.piexifAvailable img.exif strip keepOrientationOnly with
  | .error e => .error e
  | .ok ex =>
    match env.writeOk with
    | .error e => .error e
    | .ok () =>
      .ok { quality := quality
            icc_profile := if img.icc.getD [] ≠ [] ∧ ¬ strip then img.icc else none
            exif := ex }

/-- The three encode strategies `_save_as_heif` tries, in order. -/
inductive HeifStrategy
  | pilHEIF
  | pilHEIC
  | fromPillow
deriving DecidableEq, Repr

/-- Worker-side environment of the HEIF encoder: whether the installed
pillow-heif exposes a callable `from_pillow`, and the outcome of each
encode attempt. -/
structure HeifEnv where
  fromPillowCallable : Bool
  attempt : HeifStrategy → Except String Unit

/-- The final `RuntimeError` message of `_save_as_heif`, carrying the last
underlying error. -/
def heifFinalMsg (lastErr : String) : String :=
  "HEIF encoding is not supported by your installed pillow-heif build.\n" ++
  "Tried: PIL.Image.save(format=HEIF/HEIC) and pillow_heif.from_pillow(img).\n" ++
  "Last error: " ++ lastErr

/-- Model of `_save_as_heif` (src/batch_shrink.py:174-209): require HEIF capability,
convert a non-RGB raster to RGB, then try `img.save(format="HEIF")`,
`img.save(format="HEIC")`, and — when the library exposes it —
`pillow_heif.from_pillow(img).save(...)`, returning on the first success;
when everything fails, raise carrying the last underlying error.  The
result records which strategy performed the write and the raster written. -/
def save_as_heif (heifEnabled : Bool) (env : HeifEnv) (img : PILImage)
    (quality : Nat) : Except String (HeifStrategy × PILImage) :=
  match require_heif heifEnabled "Failed to encode HEIF output file." with
  | .error e => .error e
  | .ok () =>
    let img := if img.mode ≠ .RGB then toRGB img else img
    match env.attempt .pilHEIF with
    | .ok () => .ok (.pilHEIF, img)
    | .error _e1 =>
      match env.attempt .pilHEIC with
      | .ok () => .ok (.pilHEIC, img)
      | .error e2 =>
        if env.fromPillowCallable then
          match env.attempt .fromPillow with
          | .ok () => .ok (.fromPillow, img)
          | .error e3 => .error (heifFinalMsg e3)
        else .error (heifFinalMsg e2)

/-- Output format selected by `--out-format`. -/
inductive OutFormat
  | heif
  | jpg
deriving DecidableEq, Repr

/-- Job configuration passed by value to every worker. -/
structure Config where
  outFormat : OutFormat
  maxEdge : Nat
  quality : Nat
  strip : Bool
  overwrite : Bool
  keepOrientationOnly : Bool
  bg : Nat × Nat × Nat
deriving DecidableEq, Repr

/-- The destination path `process_one` computes
(src/batch_shrink.py:228-234): output directory joined with the input's
base name, extension replaced by `.jpg` or `.heic`; the input's leading
directories are discarded. -/
def out_path (outDir : String) (p : InPath) (fmt : OutFormat) : String :=
  let outBase :=
    match fmt with
    | .jpg => p.stem ++ ".jpg"
    | .heif => p.stem ++ ".heic"
  outDir ++ "/" ++ outBase

/-- Per-file result tuple of `process_one`:
`(in_path, before_bytes, after_bytes, error_msg)`. -/
abbrev Outcome := String × Nat × Nat × Option String

/-- The filesystem/codec environment one worker observes. -/
structure WorkerEnv where
  decodeEnv : DecodeEnv
  /-- Result of `out_p.exists()` at the skip check. -/
  fsExists : String → Bool
  /-- Result of `os.makedirs(out_dir, exist_ok=True)`. -/
  makedirsOk : Except String Unit
  /-- Result of `in_p.exists()` when sizing the input. -/
  inExists : Bool
  /-- Result of `os.path.getsize(in_p)`. -/
  inSize : Nat
  jpegEnv : JpegEnv
  heifEnv : HeifEnv
  /-- Result of `os.path.getsize(out_p)` after the encode, `none` when `out_p` does
  not exist. -/
  outSizeAfter : Option Nat

/-- The encoder dispatch inside `process_one` (src/batch_shrink.py:245-255). -/
def saveStep (heifEnabled : Bool) (env : WorkerEnv) (cfg : Config)
    (img : PILImage) : Except String Unit :=
  match cfg.outFormat with
  | .jpg =>
      (save_as_jpeg env.jpegEnv img cfg.quality cfg.strip
        cfg.keepOrientationOnly).map (fun _ => ())
  | .heif =>
      (save_as_heif heifEnabled env.heifEnv img cfg.quality).map (fun _ => ())

/-- The body of `process_one`'s `try` block (src/batch_shrink.py:238-260):
decode, downscale, create the output directory, size the input, encode,
then size the output and fail when it is missing or empty. -/
def pipeline (heifEnabled : Bool) (env : WorkerEnv) (inPath : InPath)
    (cfg : Config) : Except String (Nat × Nat) :=
  match decode_image heifEnabled env.decodeEnv inPath cfg.bg with
  | .error e => .error e
  | .ok img0 =>
    let img := downscale img0 cfg.maxEdge
    match env.makedirsOk with
    | .error e => .error e
    | .ok () =>
      let before := if env.inExists then env.inSize else 0
      match saveStep heifEnabled env cfg img with
      | .error e => .error e
      | .ok () =>
        let after := env.outSizeAfter.getD 0
        if after = 0 then .error "Output file not created or size is 0."
        else .ok (before, after)

/-- Model of `process_one` (src/batch_shrink.py:212-262): compute the destination,
return a skip outcome when it exists and overwrite is off, otherwise run the
pipeline inside the `try`, converting any raised error into an error outcome
(`repr(e)` is modelled as the error's message). -/
def process_one (heifEnabled : Bool) (env : WorkerEnv) (inPath : InPath)
    (outDir : String) (cfg : Config) : Outcome :=
  let out_p := out_path outDir inPath cfg.outFormat
  if ¬ cfg.overwrite ∧ env.fsExists out_p then
    (pathStr inPath, 0, 0, none)
  else
    match pipeline heifEnabled env inPath cfg with
    | .ok (b, a) => (pathStr inPath, b, a, none)
    | .error e => (pathStr inPath, 0, 0, some (pathStr inPath ++ " -> " ++ e))

/-- Python `str.strip()` on a character list. -/
def stripChars (l : List Char) : List Char :=
  ((l.dropWhile Char.isWhitespace).reverse.dropWhile Char.isWhitespace).reverse

/-- Decimal digits to a number; `none` unless the list is a nonempty run of
digits. -/
def digitsToNat (l : List Char) : Option Nat :=
  if l = [] ∨ ¬ l.all Char.isDigit then none
  else some (l.foldl (fun n c => n * 10 + (c.toNat - 48)) 0)

/-- Python `int(s)` on an already-stripped string: optional sign then
decimal digits, anything else raises (modelled as `none`). -/
def parseInt (l : List Char) : Option Int :=
  match l with
  | '-' :: rest => (digitsToNat rest).map (fun n => -(n : Int))
  | '+' :: rest => (digitsToNat rest).map (fun n => (n : Int))
  | _ => (digitsToNat l).map (fun n => (n : Int))

/-- Parsing of the `--bg` argument (src/batch_shrink.py:310-322): `white`,
`black`, or a comma-separated triple of integers in 0..255; `none` is the
path that exits with status 2.  Python's `split(",")`/`strip()`/`int()` are
modelled at the character-list level. -/
def parse_bg (s : String) : Option (Nat × Nat × Nat) :=
  if strLower s = "white" then some (255, 255, 255)
  else if strLower s = "black" then some (0, 0, 0)
  else
    match (s.data.splitOn ',').map (fun x => parseInt (stripChars x)) with
    | [some a, some b, some c] =>
        if 0 ≤ a ∧ a ≤ 255 ∧ 0 ≤ b ∧ b ≤ 255 ∧ 0 ≤ c ∧ c ≤ 255 then
          some (a.toNat, b.toNat, c.toNat)
        else none
    | _ => none

/-- How a run of `main` ends: `exited code printedErrors totalErrors`
models `sys.exit(code)` (or falling off the end, code 0) together with the
error lines printed (at most the first 50) and the reported total;
`crashed` models an exception propagating out of `main` uncaught
(the eager `_require_heif` check). -/
inductive MainResult
  | exited (code : Nat) (printedErrors : List String) (totalErrors : Nat)
  | crashed (msg : String)
deriving DecidableEq, Repr

/-- Model of `main` after argument parsing (src/batch_shrink.py:305-383): the eager
HEIF capability check, `--bg` validation (exit 2), the empty-input check
(exit 1), the piexif check (exit 3), then aggregation of the per-file
outcomes collected from the pool in completion order (`results`): with any
error, print the first 50 and the total and exit 10; otherwise print the
summary and end with status 0. -/
def mainAfterParse (heifEnabled piexifAvailable : Bool) (outFormat : OutFormat)
    (strip keepOrientationOnly : Bool) (bgArg : String) (inputs : List InPath)
    (results : List Outcome) : MainResult :=
  if outFormat = .heif ∧ ¬ heifEnabled then
    .crashed (requireHeifMsg
      "You selected --out-format heif but HEIF support is unavailable.")
  else
    match parse_bg bgArg with
    | none => .exited 2 [] 0
    | some _ =>
      if inputs = [] then .exited 1 [] 0
      else if outFormat = .jpg ∧ ¬ strip ∧ keepOrientationOnly ∧ ¬ piexifAvailable then
        .exited 3 [] 0
      else
        let errors := results.filterMap (fun r => r.2.2.2)
        if errors = [] then .exited 0 [] 0
        else .exited 10 (errors.take 50) errors.length

/-! ## Helper lemmas -/

theorem toRGB_mode (img : PILImage) : (toRGB img).mode = .RGB := rfl

theorem toRGBA_mode (img : PILImage) : (toRGBA img).mode = .RGBA := rfl

/-- The result of `_composite_alpha_to_rgb` always has mode RGB or L. -/
theorem compositeAlphaToRgb_mode (img : PILImage) (bg : Nat × Nat × Nat) :
    (compositeAlphaToRgb img bg).mode = .RGB ∨ (compositeAlphaToRgb img bg).mode = .L := by
  unfold compositeAlphaToRgb
  cases hm : img.mode <;> simp [hm, toRGB_mode]
  · cases img.transparency <;> simp [toRGB_mode]

/-- A mode that is RGB or L carries no alpha channel. -/
theorem mode_rgb_or_l_no_alpha (m : PILMode) (h : m = .RGB ∨ m = .L) :
    m.hasAlpha = false := by
  rcases h with h | h <;> simp [h, PILMode.hasAlpha]

/-! ## C1 -/

/-- C1: for every input whose decode succeeds, whatever the source mode, the
raster `decode_image` returns (which always routes through
`_composite_alpha_to_rgb`) has mode RGB or grayscale L and carries no
residual alpha channel. -/
theorem C1_decode_image_mode_invariant (heifEnabled : Bool) (env : DecodeEnv)
    (path : InPath) (bg : Nat × Nat × Nat) (img : PILImage)
    (h : decode_image heifEnabled env path bg = .ok img) :
    (img.mode = .RGB ∨ img.mode = .L) ∧ img.mode.hasAlpha = false := by
  have hmode : img.mode = .RGB ∨ img.mode = .L := by
    rcases hr : env.rawResult with e | ⟨w, ht, d⟩ <;>
      rcases ho : env.openResult with e2 | img0 <;>
      simp only [decode_image, hr, ho] at h <;>
      (repeat' split at h) <;>
      first
        | exact Except.noConfusion h
        | (injection h with h; exact h ▸ compositeAlphaToRgb_mode _ bg)
  exact ⟨hmode, mode_rgb_or_l_no_alpha _ hmode⟩

/-- Concrete instantiation of `C1_decode_image_mode_invariant`: a 1×1 RGBA
PNG decodes to the 1×1 RGB raster holding the background colour. -/
theorem C1_witness :
    decode_image true
        ⟨.ok (1, 1, []),
         .ok ⟨.RGBA, 1, 1, [[10, 20, 30, 0]], [], none, none, none⟩⟩
        ⟨[], "a", ".png"⟩ (255, 255, 255)
      = .ok ⟨.RGB, 1, 1, [[255, 255, 255]], [], none, none, none⟩ ∧
    ((PILMode.RGB = .RGB ∨ PILMode.RGB = .L) ∧ PILMode.RGB.hasAlpha = false) :=
  ⟨rfl,
   C1_decode_image_mode_invariant true
     ⟨.ok (1, 1, []), .ok ⟨.RGBA, 1, 1, [[10, 20, 30, 0]], [], none, none, none⟩⟩
     ⟨[], "a", ".png"⟩ (255, 255, 255)
     ⟨.RGB, 1, 1, [[255, 255, 255]], [], none, none, none⟩ rfl⟩

/-! ## C2 -/

theorem mix_at_full_alpha (s : Nat) : (s * 255 * 255 + 32512) / 65025 = s := by
  have h : s * 255 * 255 + 32512 = s * 65025 + 32512 := by ring
  rw [h, Nat.add_comm, Nat.add_mul_div_right _ _ (by norm_num : (0 : Nat) < 65025),
    Nat.div_eq_of_lt (by norm_num), Nat.zero_add]

/-- Source-over blending of a fully opaque source pixel yields exactly the
source pixel, whatever the destination. -/
theorem compositePx_full_alpha (d1 d2 d3 d4 r g b : Nat) :
    compositePx [d1, d2, d3, d4] [r, g, b, 255] = [r, g, b, 255] := by
  simp only [compositePx]
  norm_num
  exact ⟨mix_at_full_alpha r, mix_at_full_alpha g, mix_at_full_alpha b⟩

/-- Source-over blending of a fully transparent source pixel leaves the
destination pixel. -/
theorem compositePx_transparent (d1 d2 d3 d4 r g b : Nat) :
    compositePx [d1, d2, d3, d4] [r, g, b, 0] = [d1, d2, d3, d4] := by
  simp [compositePx]

/-- C2: for an RGBA raster and any configured background colour, the alpha
compositing of `_composite_alpha_to_rgb` maps a fully transparent pixel
(alpha 0) to exactly the background colour and a fully opaque pixel
(alpha 255) to exactly its original RGB values. -/
theorem C2_alpha_composite_endpoints (img : PILImage) (bg : Nat × Nat × Nat)
    (i r g b : Nat) (hm : img.mode = .RGBA)
    (hlen : img.data.length = img.width * img.height) :
    (img.data[i]? = some [r, g, b, 255] →
      (compositeAlphaToRgb img bg).data[i]? = some [r, g, b]) ∧
    (img.data[i]? = some [r, g, b, 0] →
      (compositeAlphaToRgb img bg).data[i]? = some [bg.1, bg.2.1, bg.2.2]) := by
  have hC : compositeAlphaToRgb img bg
      = toRGB (alphaComposite (imageNewRGBA img.width img.height bg) (toRGBA img)) := by
    unfold compositeAlphaToRgb
    rw [hm]
    simp
  have hA : (toRGBA img).data = img.data := by
    simp [toRGBA, hm]
  have hdata : (compositeAlphaToRgb img bg).data
      = (List.zipWith compositePx
          (List.replicate (img.width * img.height) [bg.1, bg.2.1, bg.2.2, 255])
          img.data).map (fun p => p.take 3) := by
    rw [hC]
    simp only [toRGB, alphaComposite, imageNewRGBA, hA]
  constructor <;> intro hpx
  · have hi : i < img.data.length := by
      rcases List.getElem?_eq_some.mp hpx with ⟨hl, _⟩
      exact hl
    have hrep : (List.replicate (img.width * img.height)
        [bg.1, bg.2.1, bg.2.2, 255])[i]? = some [bg.1, bg.2.1, bg.2.2, 255] := by
      simp [List.getElem?_replicate, hlen ▸ hi]
    rw [hdata, List.getElem?_map, List.getElem?_zipWith', hrep, hpx]
    simp [compositePx_full_alpha]
  · have hi : i < img.data.length := by
      rcases List.getElem?_eq_some.mp hpx with ⟨hl, _⟩
      exact hl
    have hrep : (List.replicate (img.width * img.height)
        [bg.1, bg.2.1, bg.2.2, 255])[i]? = some [bg.1, bg.2.1, bg.2.2, 255] := by
      simp [List.getElem?_replicate, hlen ▸ hi]
    rw [hdata, List.getElem?_map, List.getElem?_zipWith', hrep, hpx]
    simp [compositePx_transparent]

/-- Concrete instantiation of `C2_alpha_composite_endpoints` on a 2×1 RGBA
raster over background (7, 8, 9): the opaque pixel keeps its RGB values, the
transparent pixel becomes the background colour. -/
theorem C2_witness :
    ((compositeAlphaToRgb
        ⟨.RGBA, 2, 1, [[1, 2, 3, 255], [9, 9, 9, 0]], [], none, none, none⟩
        (7, 8, 9)).data[0]? = some [1, 2, 3]) ∧
    ((compositeAlphaToRgb
        ⟨.RGBA, 2, 1, [[1, 2, 3, 255], [9, 9, 9, 0]], [], none, none, none⟩
        (7, 8, 9)).data[1]? = some [7, 8, 9]) :=
  ⟨(C2_alpha_composite_endpoints
      ⟨.RGBA, 2, 1, [[1, 2, 3, 255], [9, 9, 9, 0]], [], none, none, none⟩
      (7, 8, 9) 0 1 2 3 rfl rfl).1 rfl,
   (C2_alpha_composite_endpoints
      ⟨.RGBA, 2, 1, [[1, 2, 3, 255], [9, 9, 9, 0]], [], none, none, none⟩
      (7, 8, 9) 1 9 9 9 rfl rfl).2 rfl⟩

/-! ## C9 -/

/-- After deleting every Orientation entry from a blob, looking the tag up
yields nothing. -/
theorem exifGet_filter_ne (e : ExifData) (t : Nat) :
    exifGet (e.filter (fun p => p.1 != t)) t = none := by
  induction e with
  | nil => rfl
  | cons hd tl ih =>
      by_cases h : hd.1 = t <;>
        simp [exifGet, List.filter_cons, List.find?_cons, h] at ih ⊢

/-- C9: the orientation bake `ImageOps.exif_transpose` applies in
`decode_image` is idempotent: with no Orientation tag (no EXIF blob at all,
or a blob without the tag) the bake is a no-op, and baking an already-baked
image changes nothing. -/
theorem C9_orientation_bake_idempotent :
    (∀ img : PILImage, img.exif = none → exifTranspose img = img) ∧
    (∀ (img : PILImage) (e : ExifData), img.exif = some e →
      exifGet e orientationTag = none → exifTranspose img = img) ∧
    (∀ img : PILImage, exifTranspose (exifTranspose img) = exifTranspose img) := by
  refine ⟨?_, ?_, ?_⟩
  · intro img he
    simp [exifTranspose, he]
  · intro img e he ho
    simp [exifTranspose, he, ho]
  · intro img
    cases he : img.exif with
    | none =>
        have h1 : exifTranspose img = img := by simp [exifTranspose, he]
        rw [h1, h1]
    | some e =>
        cases ho : exifGet e orientationTag with
        | none =>
            have h1 : exifTranspose img = img := by simp [exifTranspose, he, ho]
            rw [h1, h1]
        | some o =>
            by_cases hr : 2 ≤ o ∧ o ≤ 8
            · have h1 : exifTranspose img
                  = { transposeOrient img o with
                      exif := some (e.filter (fun p => p.1 != orientationTag)) } := by
                simp [exifTranspose, he, ho, hr]
              rw [h1]
              simp [exifTranspose, exifGet_filter_ne]
            · have h1 : exifTranspose img = img := by simp [exifTranspose, he, ho, hr]
              rw [h1, h1]

/-- Concrete instantiation of `C9_orientation_bake_idempotent`: decoding a
raster with no EXIF blob leaves it pixel-identical. -/
theorem C9_witness :
    exifTranspose ⟨.RGB, 1, 1, [[1, 2, 3]], [], none, none, none⟩
      = ⟨.RGB, 1, 1, [[1, 2, 3]], [], none, none, none⟩ :=
  C9_orientation_bake_idempotent.1 _ rfl

/-! ## C3 -/

/-- The output dimensions of `downscale` as the claim words them
(round to NEAREST integer, not less than 1) — the refinement comparison
definition, written from the spec, not from the source. -/
def downscale_nearest_dims (w h maxEdge : Nat) : Nat × Nat :=
  if max w h ≤ maxEdge then (w, h)
  else
    (max 1 (round ((w : ℚ) * maxEdge / max w h)).toNat,
     max 1 (round ((h : ℚ) * maxEdge / max w h)).toNat)

/-- C3 counterexample: on a 1000×999 raster with maxEdge 100 the code's
height is `int(999 * 0.1) = 99`, while rounding 99.9 to the nearest integer
as the claim states gives 100. -/
theorem C3_counterexample :
    (downscale ⟨.RGB, 1000, 999, [], [], none, none, none⟩ 100).height = 99 ∧
    (downscale_nearest_dims 1000 999 100).2 = 100 ∧
    (downscale ⟨.RGB, 1000, 999, [], [], none, none, none⟩ 100).height
      ≠ (downscale_nearest_dims 1000 999 100).2 := by
  have h2 : (downscale_nearest_dims 1000 999 100).2 = 100 := by
    unfold downscale_nearest_dims
    norm_num [round_eq]
    decide
  refine ⟨rfl, h2, ?_⟩
  rw [h2]
  decide

/-- The floored-then-clamped dimension is within one pixel of the exact
scaled value. -/
theorem floor_scale_close (w me m : Nat) (hm : 0 < m) :
    |((max 1 (w * me / m) : Nat) : ℚ) - (w : ℚ) * ((me : ℚ) / (m : ℚ))| ≤ 1 := by
  set q : ℚ := ((w * me : Nat) : ℚ) / (m : ℚ) with hq
  have hqw : (w : ℚ) * ((me : ℚ) / (m : ℚ)) = q := by
    rw [hq]; push_cast; ring
  have hfl : ⌊q⌋₊ = w * me / m := by
    rw [hq, Nat.floor_div_nat, Nat.floor_natCast]
  have hq0 : (0 : ℚ) ≤ q := by
    rw [hq]; positivity
  have hle : (↑(w * me / m) : ℚ) ≤ q := by
    rw [← hfl]; exact Nat.floor_le hq0
  have hlt : q < (↑(w * me / m) : ℚ) + 1 := by
    rw [← hfl]; exact Nat.lt_floor_add_one q
  rw [hqw]
  rcases Nat.eq_zero_or_pos (w * me / m) with h0 | hpos
  · rw [h0] at hle hlt ⊢
    norm_num at hlt ⊢
    rw [abs_le]
    constructor <;> linarith
  · rw [Nat.max_eq_right hpos, abs_le]
    push_cast at hle hlt ⊢
    constructor <;> linarith

/-- C3, amended: `downscale` is a no-op when the long edge is within
`maxEdge`; otherwise both dimensions are scaled by the same factor
`maxEdge / max(w, h)`, each result truncated (rounded DOWN, Python `int()`)
and clamped to at least 1 — not rounded to nearest — so each output
dimension stays within one pixel of the exactly-scaled value and the aspect
ratio is preserved up to that one-pixel rounding tolerance. -/
theorem C3_amended_downscale_truncates (img : PILImage) (maxEdge : Nat) :
    (max img.width img.height ≤ maxEdge → downscale img maxEdge = img) ∧
    (maxEdge < max img.width img.height →
      (downscale img maxEdge).width
          = max 1 (img.width * maxEdge / max img.width img.height) ∧
      (downscale img maxEdge).height
          = max 1 (img.height * maxEdge / max img.width img.height) ∧
      |((downscale img maxEdge).width : ℚ)
          - (img.width : ℚ) * ((maxEdge : ℚ) / ((max img.width img.height : Nat) : ℚ))| ≤ 1 ∧
      |((downscale img maxEdge).height : ℚ)
          - (img.height : ℚ) * ((maxEdge : ℚ) / ((max img.width img.height : Nat) : ℚ))| ≤ 1) := by
  constructor
  · intro hle
    unfold downscale
    simp [hle]
  · intro hgt
    have hnle : ¬ max img.width img.height ≤ maxEdge := not_le.mpr hgt
    have hm : 0 < max img.width img.height :=
      lt_of_le_of_lt (Nat.zero_le _) hgt
    have hW : (downscale img maxEdge).width
        = max 1 (img.width * maxEdge / max img.width img.height) := by
      unfold downscale
      simp [hnle, resize, remap]
    have hH : (downscale img maxEdge).height
        = max 1 (img.height * maxEdge / max img.width img.height) := by
      unfold downscale
      simp [hnle, resize, remap]
    refine ⟨hW, hH, ?_, ?_⟩
    · rw [hW]; exact floor_scale_close img.width maxEdge _ hm
    · rw [hH]; exact floor_scale_close img.height maxEdge _ hm

/-- Concrete instantiation of `C3_amended_downscale_truncates`: the
1000×999 raster at maxEdge 100 comes out 100×99, both dimensions within one
pixel of the exact scaling. -/
theorem C3_witness :
    100 < max 1000 999 ∧
    ((downscale ⟨.RGB, 1000, 999, [], [], none, none, none⟩ 100).width
        = max 1 (1000 * 100 / max 1000 999) ∧
     (downscale ⟨.RGB, 1000, 999, [], [], none, none, none⟩ 100).height
        = max 1 (999 * 100 / max 1000 999) ∧
     |((downscale ⟨.RGB, 1000, 999, [], [], none, none, none⟩ 100).width : ℚ)
        - ((1000 : Nat) : ℚ) * (((100 : Nat) : ℚ) / ((max 1000 999 : Nat) : ℚ))| ≤ 1 ∧
     |((downscale ⟨.RGB, 1000, 999, [], [], none, none, none⟩ 100).height : ℚ)
        - ((999 : Nat) : ℚ) * (((100 : Nat) : ℚ) / ((max 1000 999 : Nat) : ℚ))| ≤ 1) :=
  ⟨by decide,
   (C3_amended_downscale_truncates ⟨.RGB, 1000, 999, [], [], none, none, none⟩ 100).2
     (by decide)⟩

/-! ## C5 -/

/-- The raster `_save_as_heif` hands to the encode attempts always has mode
RGB. -/
theorem heif_converted_mode (img : PILImage) :
    (if img.mode ≠ .RGB then toRGB img else img).mode = .RGB := by
  by_cases h : img.mode = .RGB <;> simp [h, toRGB_mode]

/-- C5: `_save_as_heif` first requires HEIF capability, converts any non-RGB
raster to RGB, then tries the strategies in the fixed order
PIL-save-"HEIF", PIL-save-"HEIC", `pillow_heif.from_pillow`, returning on
the first success; when every strategy fails it raises an error carrying the
last underlying error (the `from_pillow` error when that API exists, else
the "HEIC" error). -/
theorem C5_save_as_heif_fallback_chain (heifEnabled : Bool) (env : HeifEnv)
    (img : PILImage) (quality : Nat) :
    (heifEnabled = false →
      save_as_heif heifEnabled env img quality
        = .error (requireHeifMsg "Failed to encode HEIF output file.")) ∧
    (∀ s i, save_as_heif heifEnabled env img quality = .ok (s, i) →
      i = (if img.mode ≠ .RGB then toRGB img else img) ∧ i.mode = .RGB) ∧
    (heifEnabled = true → env.attempt .pilHEIF = .ok () →
      save_as_heif heifEnabled env img quality
        = .ok (.pilHEIF, if img.mode ≠ .RGB then toRGB img else img)) ∧
    (∀ e1, heifEnabled = true → env.attempt .pilHEIF = .error e1 →
      env.attempt .pilHEIC = .ok () →
      save_as_heif heifEnabled env img quality
        = .ok (.pilHEIC, if img.mode ≠ .RGB then toRGB img else img)) ∧
    (∀ e1 e2, heifEnabled = true → env.attempt .pilHEIF = .error e1 →
      env.attempt .pilHEIC = .error e2 → env.fromPillowCallable = true →
      env.attempt .fromPillow = .ok () →
      save_as_heif heifEnabled env img quality
        = .ok (.fromPillow, if img.mode ≠ .RGB then toRGB img else img)) ∧
    (∀ e1 e2 e3, heifEnabled = true → env.attempt .pilHEIF = .error e1 →
      env.attempt .pilHEIC = .error e2 → env.fromPillowCallable = true →
      env.attempt .fromPillow = .error e3 →
      save_as_heif heifEnabled env img quality = .error (heifFinalMsg e3)) ∧
    (∀ e1 e2, heifEnabled = true → env.attempt .pilHEIF = .error e1 →
      env.attempt .pilHEIC = .error e2 → env.fromPillowCallable = false →
      save_as_heif heifEnabled env img quality = .error (heifFinalMsg e2)) := by
  refine ⟨?_, ?_, ?_, ?_, ?_, ?_, ?_⟩
  · intro h
    simp [save_as_heif, require_heif, h]
  · intro s i hok
    by_cases hEn : heifEnabled
    · simp only [save_as_heif, require_heif, hEn, if_true] at hok
      cases h1 : env.attempt .pilHEIF with
      | ok u =>
          rw [h1] at hok
          simp only [Except.ok.injEq, Prod.mk.injEq] at hok
          refine ⟨hok.2.symm, ?_⟩
          rw [← hok.2]
          exact heif_converted_mode img
      | error e1 =>
          rw [h1] at hok
          cases h2 : env.attempt .pilHEIC with
          | ok u =>
              rw [h2] at hok
              simp only [Except.ok.injEq, Prod.mk.injEq] at hok
              refine ⟨hok.2.symm, ?_⟩
              rw [← hok.2]
              exact heif_converted_mode img
          | error e2 =>
              rw [h2] at hok
              by_cases hc : env.fromPillowCallable
              · simp only [hc, if_true] at hok
                cases h3 : env.attempt .fromPillow with
                | ok u =>
                    rw [h3] at hok
                    simp only [Except.ok.injEq, Prod.mk.injEq] at hok
                    refine ⟨hok.2.symm, ?_⟩
                    rw [← hok.2]
                    exact heif_converted_mode img
                | error e3 =>
                    rw [h3] at hok
                    exact absurd hok (by simp)
              · simp only [hc, if_false] at hok
                exact absurd hok (by simp)
    · simp only [save_as_heif, require_heif, hEn, if_false] at hok
      exact absurd hok (by simp)
  · intro hEn h1
    simp [save_as_heif, require_heif, hEn, h1]
  · intro e1 hEn h1 h2
    simp [save_as_heif, require_heif, hEn, h1, h2]
  · intro e1 e2 hEn h1 h2 hc h3
    simp [save_as_heif, require_heif, hEn, h1, h2, hc, h3]
  · intro e1 e2 e3 hEn h1 h2 hc h3
    simp [save_as_heif, require_heif, hEn, h1, h2, hc, h3]
  · intro e1 e2 hEn h1 h2 hc
    simp [save_as_heif, require_heif, hEn, h1, h2, hc]

/-- Concrete instantiation of `C5_save_as_heif_fallback_chain`: with all
three strategies failing (`from_pillow` present), the encoder raises
carrying the last error, the one from `from_pillow`. -/
theorem C5_witness :
    save_as_heif true
        ⟨true, fun s => match s with
          | .pilHEIF => .error "e1"
          | .pilHEIC => .error "e2"
          | .fromPillow => .error "e3"⟩
        ⟨.RGB, 1, 1, [[0, 0, 0]], [], none, none, none⟩ 80
      = .error (heifFinalMsg "e3") :=
  (C5_save_as_heif_fallback_chain true
      ⟨true, fun s => match s with
        | .pilHEIF => .error "e1"
        | .pilHEIC => .error "e2"
        | .fromPillow => .error "e3"⟩
      ⟨.RGB, 1, 1, [[0, 0, 0]], [], none, none, none⟩ 80).2.2.2.2.2.1
    "e1" "e2" "e3" rfl rfl rfl rfl rfl

/-! ## C6 -/

/-- A successful `_save_as_jpeg` succeeded at the EXIF-policy step and at
the write, and its kwargs are exactly the quality, the conditional ICC
profile, and the EXIF entry the policy step produced. -/
theorem save_as_jpeg_ok_elim (env : JpegEnv) (img : PILImage) (q : Nat)
    (strip keepO : Bool) (kw : JpegKwargs)
    (hok : save_as_jpeg env img q strip keepO = .ok kw) :
    ∃ ex, jpeg_exif_kwargs env.piexifAvailable img.exif strip keepO = .ok ex ∧
      env.writeOk = .ok () ∧
      kw = { quality := q
             icc_profile := if img.icc.getD [] ≠ [] ∧ ¬ strip then img.icc else none
             exif := ex } := by
  unfold save_as_jpeg at hok
  cases hke : jpeg_exif_kwargs env.piexifAvailable img.exif strip keepO with
  | error e => rw [hke] at hok; exact Except.noConfusion hok
  | ok ex =>
      rw [hke] at hok
      cases hw : env.writeOk with
      | error e => rw [hw] at hok; exact Except.noConfusion hok
      | ok u =>
          rw [hw] at hok
          cases u
          injection hok with hok
          exact ⟨ex, rfl, rfl, hok.symm⟩

/-- C6: with `strip` set the saved JPEG carries no EXIF block and no ICC
profile; with `strip` unset a present ICC profile is always attached,
whatever the EXIF sub-policy; with `strip` and `keep_orientation_only` both
unset a present EXIF blob is re-attached verbatim. -/
theorem C6_jpeg_metadata_policy (env : JpegEnv) (img : PILImage) (q : Nat) :
    (∀ (keepO : Bool) (kw : JpegKwargs),
      save_as_jpeg env img q true keepO = .ok kw →
      kw.exif = none ∧ kw.icc_profile = none) ∧
    (∀ (keepO : Bool) (kw : JpegKwargs) (icc : List Nat),
      img.icc = some icc → icc ≠ [] →
      save_as_jpeg env img q false keepO = .ok kw →
      kw.icc_profile = some icc) ∧
    (∀ (kw : JpegKwargs) (e : ExifData),
      img.exif = some e → e ≠ [] →
      save_as_jpeg env img q false false = .ok kw →
      kw.exif = some e) := by
  refine ⟨?_, ?_, ?_⟩
  · intro keepO kw hok
    obtain ⟨ex, hke, _, rfl⟩ := save_as_jpeg_ok_elim env img q true keepO kw hok
    have hex : ex = none := by
      simp [jpeg_exif_kwargs] at hke
      exact hke.symm
    subst hex
    simp
  · intro keepO kw icc hi hne hok
    obtain ⟨ex, _, _, rfl⟩ := save_as_jpeg_ok_elim env img q false keepO kw hok
    simp [hi, hne]
  · intro kw e he hne hok
    obtain ⟨ex, hke, _, rfl⟩ := save_as_jpeg_ok_elim env img q false false kw hok
    have hex : ex = some e := by
      simp [jpeg_exif_kwargs, he, hne] at hke
      exact hke.symm
    subst hex
    simp

/-- Concrete instantiation of `C6_jpeg_metadata_policy`: with strip and
keep-orientation-only both unset, the source EXIF blob is attached
verbatim. -/
theorem C6_witness :
    (⟨80, true, true, 2, some [1], some [(274, 6), (306, 1)]⟩ : JpegKwargs).exif
      = some [(274, 6), (306, 1)] :=
  (C6_jpeg_metadata_policy ⟨true, .ok ()⟩
      ⟨.RGB, 1, 1, [[0, 0, 0]], [], none, some [1], some [(274, 6), (306, 1)]⟩
      80).2.2
    ⟨80, true, true, 2, some [1], some [(274, 6), (306, 1)]⟩
    [(274, 6), (306, 1)] rfl (by decide) rfl

/-! ## C10 -/

/-- C10: under keep-orientation-only with `strip` unset, a raster with no
EXIF blob saves fine with no EXIF block, without piexif being installed
(`_keep_only_orientation_exif` returns before importing it); and a blob
without an Orientation tag yields `None`, so the JPEG is saved with no EXIF
block rather than failing. -/
theorem C10_keep_orientation_only_robust :
    (∀ piexifAvailable : Bool,
      keep_only_orientation_exif piexifAvailable none = .ok none) ∧
    (∀ e : ExifData, e ≠ [] → exifGet e orientationTag = none →
      keep_only_orientation_exif true (some e) = .ok none) ∧
    (∀ (env : JpegEnv) (img : PILImage) (q : Nat),
      img.exif = none → env.writeOk = .ok () →
      ∃ kw, save_as_jpeg env img q false true = .ok kw ∧ kw.exif = none) ∧
    (∀ (env : JpegEnv) (img : PILImage) (q : Nat) (e : ExifData),
      img.exif = some e → e ≠ [] → exifGet e orientationTag = none →
      env.piexifAvailable = true → env.writeOk = .ok () →
      ∃ kw, save_as_jpeg env img q false true = .ok kw ∧ kw.exif = none) := by
  refine ⟨?_, ?_, ?_, ?_⟩
  · intro p
    simp [keep_only_orientation_exif]
  · intro e hne ho
    simp [keep_only_orientation_exif, hne, ho]
  · intro env img q he hw
    have h1 : jpeg_exif_kwargs env.piexifAvailable img.exif false true = .ok none := by
      simp [jpeg_exif_kwargs, keep_only_orientation_exif, he]
    refine ⟨{ quality := q
              icc_profile := if img.icc.getD [] ≠ [] ∧ ¬ (false : Bool) then img.icc else none
              exif := none }, ?_, rfl⟩
    unfold save_as_jpeg
    rw [h1, hw]
  · intro env img q e he hne ho hp hw
    have h1 : jpeg_exif_kwargs env.piexifAvailable img.exif false true = .ok none := by
      simp [jpeg_exif_kwargs, keep_only_orientation_exif, he, hne, ho, hp]
    refine ⟨{ quality := q
              icc_profile := if img.icc.getD [] ≠ [] ∧ ¬ (false : Bool) then img.icc else none
              exif := none }, ?_, rfl⟩
    unfold save_as_jpeg
    rw [h1, hw]

/-- Concrete instantiation of `C10_keep_orientation_only_robust`:
keep-orientation-only on a raster with no EXIF blob, piexif NOT installed —
the save succeeds and attaches no EXIF. -/
theorem C10_witness :
    ∃ kw, save_as_jpeg ⟨false, .ok ()⟩
        ⟨.RGB, 1, 1, [[0, 0, 0]], [], none, none, none⟩ 80 false true = .ok kw ∧
      kw.exif = none :=
  C10_keep_orientation_only_robust.2.2.1 ⟨false, .ok ()⟩
    ⟨.RGB, 1, 1, [[0, 0, 0]], [], none, none, none⟩ 80 rfl rfl

/-! ## C7 -/

/-- C7: the destination is the output directory joined with the input's base
filename, extension replaced by `.jpg` (out-format jpg) or `.heic`
(out-format heif), discarding the input's directories; and if the
destination exists and overwrite is off, `process_one` returns the skip
outcome `(path, 0, 0, no error)` whatever the rest of the worker
environment holds — no decode, transform or encode result affects it. -/
theorem C7_flat_output_and_skip :
    (∀ (outDir : String) (p : InPath),
      out_path outDir p .jpg = outDir ++ "/" ++ (p.stem ++ ".jpg") ∧
      out_path outDir p .heif = outDir ++ "/" ++ (p.stem ++ ".heic")) ∧
    (∀ (outDir : String) (p : InPath) (dirs' : List String) (fmt : OutFormat),
      out_path outDir { p with dirs := dirs' } fmt = out_path outDir p fmt) ∧
    (∀ (heifEnabled : Bool) (env : WorkerEnv) (p : InPath) (outDir : String)
        (cfg : Config),
      cfg.overwrite = false →
      env.fsExists (out_path outDir p cfg.outFormat) = true →
      process_one heifEnabled env p outDir cfg = (pathStr p, 0, 0, none)) := by
  refine ⟨?_, ?_, ?_⟩
  · intro outDir p
    exact ⟨rfl, rfl⟩
  · intro outDir p dirs' fmt
    cases fmt <;> rfl
  · intro heifEnabled env p outDir cfg hov hex
    unfold process_one
    rw [if_pos]
    exact ⟨by simp [hov], hex⟩

/-- Concrete instantiation of `C7_flat_output_and_skip`: the destination
exists (the environment says every path exists), overwrite is off, and the
worker's decode environment would fail — yet the outcome is the skip tuple,
untouched by the pipeline. -/
theorem C7_witness :
    process_one true
        ⟨⟨.error "boom", .error "boom"⟩, fun _ => true, .ok (), true, 7,
         ⟨true, .ok ()⟩, ⟨true, fun _ => .ok ()⟩, some 5⟩
        ⟨["d"], "a", ".png"⟩ "out"
        ⟨.jpg, 6000, 80, false, false, false, (255, 255, 255)⟩
      = ("d/a.png", 0, 0, none) :=
  C7_flat_output_and_skip.2.2 true
    ⟨⟨.error "boom", .error "boom"⟩, fun _ => true, .ok (), true, 7,
     ⟨true, .ok ()⟩, ⟨true, fun _ => .ok ()⟩, some 5⟩
    ⟨["d"], "a", ".png"⟩ "out"
    ⟨.jpg, 6000, 80, false, false, false, (255, 255, 255)⟩ rfl rfl

/-! ## C8 -/

/-- C8: when the whole encode path reports success but the output file is
missing or empty (`outSizeAfter` absent or 0), `process_one` returns an
error outcome, not success. -/
theorem C8_empty_output_is_failure (heifEnabled : Bool) (env : WorkerEnv)
    (p : InPath) (outDir : String) (cfg : Config) (img : PILImage)
    (hskip : cfg.overwrite = true ∨
      env.fsExists (out_path outDir p cfg.outFormat) = false)
    (hdec : decode_image heifEnabled env.decodeEnv p cfg.bg = .ok img)
    (hmk : env.makedirsOk = .ok ())
    (hsave : saveStep heifEnabled env cfg (downscale img cfg.maxEdge) = .ok ())
    (hafter : env.outSizeAfter.getD 0 = 0) :
    process_one heifEnabled env p outDir cfg
      = (pathStr p, 0, 0,
         some (pathStr p ++ " -> " ++ "Output file not created or size is 0.")) := by
  have hpipe : pipeline heifEnabled env p cfg
      = .error "Output file not created or size is 0." := by
    unfold pipeline
    rw [hdec]
    simp [hmk, hsave, hafter]
  unfold process_one
  rw [if_neg, hpipe]
  rcases hskip with h | h <;> simp [h]

/-- Concrete instantiation of `C8_empty_output_is_failure`: decode and
encode succeed but the output file has size 0 — the outcome is an error. -/
theorem C8_witness :
    process_one true
        ⟨⟨.error "unused",
          .ok ⟨.RGB, 1, 1, [[1, 2, 3]], [], none, none, none⟩⟩,
         fun _ => false, .ok (), true, 7,
         ⟨true, .ok ()⟩, ⟨true, fun _ => .ok ()⟩, some 0⟩
        ⟨[], "a", ".png"⟩ "out"
        ⟨.jpg, 6000, 80, false, false, false, (255, 255, 255)⟩
      = ("a.png", 0, 0,
         some ("a.png" ++ " -> " ++ "Output file not created or size is 0.")) :=
  C8_empty_output_is_failure true
    ⟨⟨.error "unused", .ok ⟨.RGB, 1, 1, [[1, 2, 3]], [], none, none, none⟩⟩,
     fun _ => false, .ok (), true, 7,
     ⟨true, .ok ()⟩, ⟨true, fun _ => .ok ()⟩, some 0⟩
    ⟨[], "a", ".png"⟩ "out"
    ⟨.jpg, 6000, 80, false, false, false, (255, 255, 255)⟩
    ⟨.RGB, 1, 1, [[1, 2, 3]], [], none, none, none⟩
    (Or.inr rfl) rfl rfl rfl rfl

/-! ## C4 -/

/-- C4: a pipeline failure is converted by `process_one` into an error
outcome (never an exception escaping the worker); `main` exits 1 when no
eligible inputs were discovered, exits 10 when any outcome carries an error
(printing the first 50 errors and the total count), exits 0 when every
outcome is error-free, and never reports status 0 when some outcome carries
an error. -/
theorem C4_failure_isolation_and_exit_status :
    (∀ (heifEnabled : Bool) (env : WorkerEnv) (p : InPath) (outDir : String)
        (cfg : Config) (e : String),
      (cfg.overwrite = true ∨
        env.fsExists (out_path outDir p cfg.outFormat) = false) →
      pipeline heifEnabled env p cfg = .error e →
      process_one heifEnabled env p outDir cfg
        = (pathStr p, 0, 0, some (pathStr p ++ " -> " ++ e))) ∧
    (∀ (hE pA : Bool) (fmt : OutFormat) (strip keepO : Bool) (bgArg : String)
        (results : List Outcome),
      ¬ (fmt = .heif ∧ ¬ hE) → (parse_bg bgArg).isSome →
      mainAfterParse hE pA fmt strip keepO bgArg [] results = .exited 1 [] 0) ∧
    (∀ (hE pA : Bool) (fmt : OutFormat) (strip keepO : Bool) (bgArg : String)
        (inputs : List InPath) (results : List Outcome),
      ¬ (fmt = .heif ∧ ¬ hE) → (parse_bg bgArg).isSome → inputs ≠ [] →
      ¬ (fmt = .jpg ∧ ¬ strip ∧ keepO ∧ ¬ pA) →
      results.filterMap (fun r => r.2.2.2) ≠ [] →
      mainAfterParse hE pA fmt strip keepO bgArg inputs results
        = .exited 10 ((results.filterMap (fun r => r.2.2.2)).take 50)
            (results.filterMap (fun r => r.2.2.2)).length) ∧
    (∀ (hE pA : Bool) (fmt : OutFormat) (strip keepO : Bool) (bgArg : String)
        (inputs : List InPath) (results : List Outcome),
      ¬ (fmt = .heif ∧ ¬ hE) → (parse_bg bgArg).isSome → inputs ≠ [] →
      ¬ (fmt = .jpg ∧ ¬ strip ∧ keepO ∧ ¬ pA) →
      results.filterMap (fun r => r.2.2.2) = [] →
      mainAfterParse hE pA fmt strip keepO bgArg inputs results
        = .exited 0 [] 0) ∧
    (∀ (hE pA : Bool) (fmt : OutFormat) (strip keepO : Bool) (bgArg : String)
        (inputs : List InPath) (results : List Outcome)
        (printed : List String) (total : Nat),
      results.filterMap (fun r => r.2.2.2) ≠ [] →
      mainAfterParse hE pA fmt strip keepO bgArg inputs results
        ≠ .exited 0 printed total) := by
  refine ⟨?_, ?_, ?_, ?_, ?_⟩
  · intro heifEnabled env p outDir cfg e hskip hpipe
    unfold process_one
    rw [if_neg, hpipe]
    rcases hskip with h | h <;> simp [h]
  · intro hE pA fmt strip keepO bgArg results hHeif hbg
    obtain ⟨bgv, hb⟩ := Option.isSome_iff_exists.mp hbg
    simp only [mainAfterParse, hb]
    rw [if_neg hHeif]
    simp
  · intro hE pA fmt strip keepO bgArg inputs results hHeif hbg hin hpg herr
    obtain ⟨bgv, hb⟩ := Option.isSome_iff_exists.mp hbg
    simp only [mainAfterParse, hb]
    rw [if_neg hHeif, if_neg hin, if_neg hpg, if_neg herr]
  · intro hE pA fmt strip keepO bgArg inputs results hHeif hbg hin hpg herr
    obtain ⟨bgv, hb⟩ := Option.isSome_iff_exists.mp hbg
    simp only [mainAfterParse, hb]
    rw [if_neg hHeif, if_neg hin, if_neg hpg, if_pos herr]
  · intro hE pA fmt strip keepO bgArg inputs results printed total herr
    unfold mainAfterParse
    split
    · simp
    · cases hpb : parse_bg bgArg with
      | none => simp
      | some bgv =>
          split
          · simp
          · rw [if_neg herr]
            by_cases hpg2 : fmt = OutFormat.jpg ∧ ¬ strip ∧ keepO ∧ ¬ pA
            · rw [if_pos hpg2]
              by_cases hin2 : inputs = [] <;> simp [hin2]
            · rw [if_neg hpg2]
              by_cases hin2 : inputs = [] <;> simp [hin2]

/-- Concrete instantiation of `C4_failure_isolation_and_exit_status`: one
input file whose outcome carries an error — the run exits 10, prints that
error, and reports one error in total. -/
theorem C4_witness :
    mainAfterParse true true .jpg true false "white"
        [⟨[], "a", ".png"⟩] [("a.png", 0, 0, some "a.png -> boom")]
      = .exited 10 ["a.png -> boom"] 1 :=
  ((C4_failure_isolation_and_exit_status).2.2.1 true true .jpg true false "white"
      [⟨[], "a", ".png"⟩] [("a.png", 0, 0, some "a.png -> boom")]
      (by decide) rfl (by decide) (by decide) (by decide)).trans (by decide)

end BatchShrink
